import Mathlib

/-!
Shallow embedding of the Sport Buddy backend (src/models.py, src/app.py,
src/sqlite_data.py) and proofs about its participant-capacity and chat
subsystems.

Conventions of the embedding:
* SQLAlchemy tables are lists of records in row-insertion order (SQLite
  returns unordered queries in rowid order); `Model.query.get(pk)` is
  `List.find?` on the id, `filter_by(...).first()` is `List.find?`, and a
  relationship such as `playdate.participants` is a `List.filter`.
* `db.session.add` appends a row; `db.session.delete` removes the found row
  (the first one matching the `filter_by` predicate).
* `DateTime` values are `Nat` timestamps; `Float` coordinate columns are
  carried as `Int` (no claim computes with coordinates).
* Machine-facing inputs that the handlers only parse (JWT tokens, strptime
  date strings) are represented by their decode/parse outcome, documented at
  each field.
-/

namespace SportBuddy

/-- `User` model, src/models.py lines 7-24. -/
structure User where
  id : Nat
  username : String
  first_name : String
  last_name : String
  email : String
  password : String
deriving Repr, DecidableEq

/-- `Playdate` model, src/models.py lines 61-80.  `max_participants` is a
nullable integer column defaulting to `None` (null = unlimited). -/
structure Playdate where
  id : Nat
  title : String
  sport_id : Nat
  creator_id : Nat
  address : String
  longitude : Int
  latitude : Int
  date : Nat
  max_participants : Option Nat
deriving Repr, DecidableEq

/-- `Participant` model, src/models.py lines 83-91: a join row
(user_id, playdate_id).  The autoincrement surrogate key is not observed by
any handler and is left out; row identity is positional in the table list. -/
structure Participant where
  user_id : Nat
  playdate_id : Nat
deriving Repr, DecidableEq

/-- `MessageType` enumeration, src/models.py lines 94-98.  The Python members
are TEXT, AUDIO, VIDEO, IMAGE; they are lowercased here as Lean constructor
names. -/
inductive MessageType where
  | text
  | audio
  | video
  | image
deriving Repr, DecidableEq

/-- `Chat` model, src/models.py lines 101-116.  Note: the mapped columns are
exactly `sender_id`, `receiver_id` (NOT nullable), `message`, `message_type`,
`date`, `status` — the model defines NO `room_id` column, which is what makes
the room-keyword constructor calls in app.py fail (see `addChat` and
`sendMessage` below). -/
structure Chat where
  sender_id : Nat
  receiver_id : Nat
  message : String
  message_type : MessageType
  date : Nat
  status : String
deriving Repr, DecidableEq

/-- The database state: the four tables the verified handlers touch. -/
structure AppState where
  users : List User
  playdates : List Playdate
  participants : List Participant
  chats : List Chat
deriving Repr, DecidableEq

/-- `User.query.get(user_id)` — primary-key lookup. -/
def getUser (s : AppState) (user_id : Nat) : Option User :=
  s.users.find? (fun u => u.id == user_id)

/-- `Playdate.query.get(playdate_id)` — primary-key lookup. -/
def getPlaydate (s : AppState) (playdate_id : Nat) : Option Playdate :=
  s.playdates.find? (fun p => p.id == playdate_id)

/-- The `playdate.participants` relationship (src/models.py line 74): all
Participant rows whose `playdate_id` matches. -/
def playdateParticipants (s : AppState) (playdate_id : Nat) : List Participant :=
  s.participants.filter (fun pt => pt.playdate_id == playdate_id)

/-- `Participant.query.filter_by(user_id=..., playdate_id=...).first()`. -/
def findParticipant (s : AppState) (user_id playdate_id : Nat) : Option Participant :=
  s.participants.find? (fun pt => pt.user_id == user_id && pt.playdate_id == playdate_id)

/-- Number of participant rows of a playdate (`len(playdate.participants)`). -/
def participantCount (s : AppState) (playdate_id : Nat) : Nat :=
  (playdateParticipants s playdate_id).length

/-- The capacity guard of src/app.py line 312:
`if playdate.max_participants and current_participants >= playdate.max_participants`.
Python truthiness makes BOTH a null and a zero `max_participants` skip the
check, which is why the second disjunct tests `m != 0`. -/
def capacityBlocked (max_participants : Option Nat) (current : Nat) : Bool :=
  match max_participants with
  | none => false
  | some m => m != 0 && decide (current ≥ m)

/-- Outcomes of `add_participant` (src/app.py lines 291-344), tagged with the
HTTP status each branch returns. -/
inductive JoinResult where
  | badRequest                        -- 400, missing (or falsy) 'user_id'
  | userNotFound                      -- 404
  | playdateNotFound                  -- 404
  | conflict                          -- 409, already a participant
  | capacityExceeded                  -- 403, playdate full
  | created (participants_count : Nat) -- 201, row inserted
deriving Repr, DecidableEq

/-- `add_participant(playdate_id)` — src/app.py lines 291-344.  `user_id` is
`data.get('user_id')`: `none` models an absent key, and the guard
`if not user_id` also rejects a present-but-zero id (Python truthiness). -/
def addParticipant (s : AppState) (playdate_id : Nat) (user_id : Option Nat) :
    JoinResult × AppState :=
  match user_id with
  | none => (.badRequest, s)
  | some uid =>
    if uid == 0 then (.badRequest, s)
    else
      match getUser s uid with
      | none => (.userNotFound, s)
      | some user =>
        match getPlaydate s playdate_id with
        | none => (.playdateNotFound, s)
        | some playdate =>
          match findParticipant s user.id playdate.id with
          | some _ => (.conflict, s)
          | none =>
            let current_participants := (playdateParticipants s playdate.id).length
            if capacityBlocked playdate.max_participants current_participants then
              (.capacityExceeded, s)
            else
              let s' : AppState :=
                { s with participants := s.participants ++ [⟨user.id, playdate.id⟩] }
              (.created (playdateParticipants s' playdate.id).length, s')

/-- Outcomes of `remove_participant` (src/app.py lines 348-388). -/
inductive LeaveResult where
  | notFound                           -- 404, user or playdate missing
  | notParticipant                     -- 404, no such membership row
  | removed (participants_count : Nat) -- 200, row deleted
deriving Repr, DecidableEq

/-- `remove_participant(playdate_id, user_id)` — src/app.py lines 348-388. -/
def removeParticipant (s : AppState) (playdate_id user_id : Nat) :
    LeaveResult × AppState :=
  match getUser s user_id, getPlaydate s playdate_id with
  | some user, some playdate =>
    match findParticipant s user.id playdate.id with
    | none => (.notParticipant, s)
    | some _ =>
      let s' : AppState :=
        { s with participants :=
            s.participants.eraseP fun pt =>
              pt.user_id == user.id && pt.playdate_id == playdate.id }
      (.removed (playdateParticipants s' playdate.id).length, s')
  | _, _ => (.notFound, s)

/-! Membership operations as a labelled transition system, for stating the
capacity invariant over arbitrary sequences of joins and leaves. -/

/-- A membership request against the REST boundary: a join
(`POST /playdates/<id>/participants`) or a leave
(`DELETE /playdates/<id>/participants/<uid>`). -/
inductive MembershipOp where
  | join (user_id playdate_id : Nat)
  | leave (user_id playdate_id : Nat)
deriving Repr, DecidableEq

/-- The state reached after one membership request (the response is dropped). -/
def applyOp (s : AppState) : MembershipOp → AppState
  | .join u p => (addParticipant s p (some u)).2
  | .leave u p => (removeParticipant s p u).2

/-- The state reached after a sequence of membership requests. -/
def runOps (s : AppState) (ops : List MembershipOp) : AppState :=
  ops.foldl applyOp s

/-- The spec's capacity invariant, as written: whenever `max_participants` is
non-null, the live participant count does not exceed it. -/
def capacityInvariant (s : AppState) : Prop :=
  ∀ p ∈ s.playdates, ∀ m, p.max_participants = some m →
    participantCount s p.id ≤ m

/-- The capacity invariant restricted to playdates whose `max_participants` is
non-null AND positive — the bound the code actually enforces, since the
truthiness test in `add_participant` skips the check when the value is 0. -/
def posCapacityInvariant (s : AppState) : Prop :=
  ∀ p ∈ s.playdates, ∀ m, p.max_participants = some m → 0 < m →
    participantCount s p.id ≤ m

/-! The two non-atomic halves of the join handler, for exhibiting the
check-then-insert race.  `add_participant` first evaluates all its guards
against the state it read (src/app.py lines 296-313) and only then inserts
(lines 316-318); nothing serializes the two phases per playdate. -/

/-- Phase 1 of `add_participant`: do all the guards pass against state `s`? -/
def joinCheck (s : AppState) (user_id playdate_id : Nat) : Bool :=
  user_id != 0 &&
    match getUser s user_id, getPlaydate s playdate_id with
    | some user, some playdate =>
      (findParticipant s user.id playdate.id).isNone &&
        !capacityBlocked playdate.max_participants
          (playdateParticipants s playdate.id).length
    | _, _ => false

/-- Phase 2 of `add_participant`: insert the membership row. -/
def joinInsert (s : AppState) (user_id playdate_id : Nat) : AppState :=
  { s with participants := s.participants ++ [⟨user_id, playdate_id⟩] }

/-- A join request in flight: which phases have run and what they observed. -/
structure JoinTask where
  user_id : Nat
  playdate_id : Nat
  checked : Option Bool := none
  succeeded : Option Bool := none
deriving Repr, DecidableEq

/-- The two scheduling points of one join request. -/
inductive JoinPhase where
  | check
  | insert
deriving Repr, DecidableEq

/-- Run one phase of one in-flight join request against the shared state. -/
def stepTask (s : AppState) (t : JoinTask) : JoinPhase → AppState × JoinTask
  | .check =>
    match t.checked with
    | none => (s, { t with checked := some (joinCheck s t.user_id t.playdate_id) })
    | some _ => (s, t)
  | .insert =>
    match t.checked, t.succeeded with
    | some true, none =>
      (joinInsert s t.user_id t.playdate_id, { t with succeeded := some true })
    | some false, none => (s, { t with succeeded := some false })
    | _, _ => (s, t)

/-- Execute concurrent join requests under an explicit interleaving: the
schedule names, step by step, which request runs which phase next. -/
def runInterleaving (s : AppState) (ts : List JoinTask) :
    List (Nat × JoinPhase) → AppState × List JoinTask
  | [] => (s, ts)
  | (i, ph) :: rest =>
    match ts[i]? with
    | none => runInterleaving s ts rest
    | some t =>
      let (s', t') := stepTask s t ph
      runInterleaving s' (ts.set i t') rest

/-! The chat boundary: `POST /chat` (src/app.py lines 637-671), the
`send_message` socket handler (lines 773-833), and the direct branch of
`get_chat_history` (lines 724-762). -/

/-- The JSON body of a `POST /chat` request.  Each field is `none` when the
key is absent.  The `date` field is the raw string represented by its
`strptime(_, '%d-%m-%Y %H:%M:%S')` outcome: `some none` means the key is
present but the string does not parse (ValueError → 400), `some (some t)`
means it parses to timestamp `t`. -/
structure ChatPostData where
  sender_id : Option Nat
  receiver_id : Option Nat
  room_id : Option Nat
  message : Option String
  message_type : Option String
  date : Option (Option Nat)
  status : Option String
deriving Repr, DecidableEq

/-- Outcomes of `add_chat`. -/
inductive ChatPostResult where
  | badRequest (error : String) -- 400
  | internalError               -- unhandled exception, HTTP 500
  | created                     -- 201 (no execution reaches this, see addChat)
deriving Repr, DecidableEq

/-- `add_chat` — src/app.py lines 637-671.  After the field validations the
handler evaluates `data['receiver_id']` unconditionally (line 659), a KeyError
when the key is absent, and then calls
`Chat(..., room_id=data.get('room_id'), ...)`: `models.Chat` maps no
`room_id` attribute, so SQLAlchemy's declarative constructor raises
`TypeError` for the unexpected keyword whatever its value.  Both exceptions
are outside the `try` (which guards only the strptime call), so they surface
as a 500 and no row is inserted. -/
def addChat (s : AppState) (data : ChatPostData) : ChatPostResult × AppState :=
  if !(data.sender_id.isSome && data.message.isSome &&
        data.message_type.isSome && data.date.isSome) then
    (.badRequest "Missing required fields", s)
  else if data.receiver_id.isNone && data.room_id.isNone then
    (.badRequest "Either receiver_id or room_id must be provided", s)
  else if data.receiver_id.isSome && data.room_id.isSome then
    (.badRequest "Cannot have both receiver_id and room_id", s)
  else
    match data.date with
    | some (some _) =>
      match data.receiver_id with
      | none => (.internalError, s)    -- KeyError on data['receiver_id']
      | some _ => (.internalError, s)  -- TypeError on the room_id keyword
    | _ => (.badRequest "Invalid date format", s)

/-- The claims a decoded JWT carries (src/app.py lines 562-568). -/
structure TokenPayload where
  sub : String
  email : String
  firstName : String
  lastName : String
  userId : Nat
deriving Repr, DecidableEq

/-- The payload of a `send_message` socket event.  `token` is the
`decode_token(data["token"])` outcome (`none` = absent key or failed decode,
both raising before the `try` block); `date` is the
`strptime(data['date'][:-1], "%Y-%m-%dT%H:%M:%S.%f")` outcome (`none` = absent
key or unparsable, again raising before the `try`). -/
structure SendMessageData where
  token : Option TokenPayload
  room : Option Nat
  receiver_id : Option Nat
  message : Option String
  message_type : Option String
  date : Option Nat
deriving Repr, DecidableEq

/-- Outcomes of `handle_send_message`. -/
inductive SendMessageResult where
  | uncaughtError              -- exception raised outside the try block
  | errorEvent (message : String) -- emit('error', {'message': ...})
  | delivered                  -- receive_message broadcast (never reached)
deriving Repr, DecidableEq

/-- `MessageType[name]` — enum lookup by member name, KeyError on failure. -/
def messageTypeByName (name : String) : Option MessageType :=
  if name = "TEXT" then some .text
  else if name = "AUDIO" then some .audio
  else if name = "VIDEO" then some .video
  else if name = "IMAGE" then some .image
  else none

/-- `handle_send_message` — src/app.py lines 773-833.  The body follows the
source order: token decode (line 777), `data['message']` (783), date parse
(790), the `if not room` guard (794, truthiness: a zero room is also falsy),
then inside the `try`: `MessageType[message_type]` (800) and the
`Chat(..., room_id=room, ...)` construction (801-809).  The constructor call
always raises `TypeError` because `models.Chat` maps no `room_id` attribute,
so the generic `except Exception` branch (829-831) answers every request that
gets that far and no Chat row is ever persisted. -/
def sendMessage (s : AppState) (data : SendMessageData) : SendMessageResult × AppState :=
  match data.token with
  | none => (.uncaughtError, s)
  | some _ =>
    match data.message with
    | none => (.uncaughtError, s)
    | some _ =>
      match data.date with
      | none => (.uncaughtError, s)
      | some _ =>
        match data.room with
        | none => (.errorEvent "room_id must be provided", s)
        | some room =>
          if room == 0 then (.errorEvent "room_id must be provided", s)
          else
            let message_type := data.message_type.getD "TEXT"
            match messageTypeByName message_type with
            | none => (.errorEvent "Invalid message type.", s)
            | some _ =>
              (.errorEvent "An error occurred while sending the message.", s)

/-- The predicate of the direct-pair branch of `get_chat_history`
(src/app.py lines 738-741): messages between the token's user and the
requested peer, in either direction. -/
def directPairPred (current_user_id receiver_id : Nat) (c : Chat) : Bool :=
  (c.sender_id == receiver_id && c.receiver_id == current_user_id) ||
    (c.sender_id == current_user_id && c.receiver_id == receiver_id)

/-- Date order on chat rows, for modelling `order_by(Chat.date)`. -/
def chatDateLe (x y : Chat) : Prop := x.date ≤ y.date

instance : DecidableRel chatDateLe := fun x y => Nat.decLe x.date y.date

instance : IsTotal Chat chatDateLe := ⟨fun x y => Nat.le_total x.date y.date⟩

instance : IsTrans Chat chatDateLe := ⟨fun _ _ _ => Nat.le_trans⟩

/-- The QUERY step of the direct branch of `get_chat_history` (src/app.py
lines 738-741): filter by the pair predicate and `order_by(Chat.date)`
ascending (modelled as a stable sort on the date).  This is only the query;
the handler then serializes the result, which crashes on every row — see
`handleChatHistory`. -/
def chatHistoryDirect (s : AppState) (current_user_id receiver_id : Nat) : List Chat :=
  List.insertionSort chatDateLe (s.chats.filter (directPairPred current_user_id receiver_id))

/-- Python truthiness of an optional integer field: absent or zero is falsy. -/
def optFalsy (o : Option Nat) : Bool :=
  match o with
  | none => true
  | some n => n == 0

/-- The payload of a `get_chat_history` socket event.  `token` is the
`decode_token(data["token"])` outcome (`none` = absent key or failed decode,
an exception the handler does not catch). -/
structure ChatHistoryData where
  token : Option TokenPayload
  room : Option Nat
  receiver_id : Option Nat
deriving Repr, DecidableEq

/-- What `handle_chat_history` emits. -/
inductive ChatHistoryResult where
  | uncaughtError                   -- exception in the handler, nothing emitted
  | errorEvent (message : String)   -- emit('error', {'message': ...})
  | history (messages : List Chat)  -- emit('chat_history', {'messages': ...})
deriving Repr, DecidableEq

/-- `handle_chat_history` — src/app.py lines 724-763, serialization included.
In source order: `decode_token` (line 728, raises on a bad token), the
neither-target guard (731), then the query.  A truthy `room` takes the room
branch, whose `filter_by(room_id=room)` names an unmapped property of
`models.Chat` and raises.  The direct branch runs the query of
`chatHistoryDirect` and then serializes each row; the serializer reads
`chat.room_id` (line 751), which raises AttributeError on the FIRST row —
`models.Chat` maps no room_id column — so `chat_history` is emitted only when
the result is empty and a non-empty history is never returned. -/
def handleChatHistory (s : AppState) (data : ChatHistoryData) : ChatHistoryResult :=
  match data.token with
  | none => .uncaughtError
  | some tok =>
    if optFalsy data.room && optFalsy data.receiver_id then
      .errorEvent "Either room_id or receiver_id must be provided"
    else if !optFalsy data.room then
      .uncaughtError
    else
      match chatHistoryDirect s tok.userId (data.receiver_id.getD 0) with
      | [] => .history []
      | _ :: _ => .uncaughtError

/-! Connection lifecycle: `handle_connect` (src/app.py lines 674-688) and
`handle_disconnect` (lines 690-698). -/

/-- The in-memory socket-layer state: the module-level `users` dict (an
insertion-ordered map whose values are compared with `request.sid`, line 693)
and the transport's room membership, as (session id, room) pairs. -/
structure SocketState where
  users : List (String × Nat)
  rooms : List (Nat × Nat)
deriving Repr, DecidableEq

/-- `leave_room(room)` for the current session: the transport drops the
(sid, room) membership. -/
def leaveRoom (st : SocketState) (sid room : Nat) : SocketState :=
  { st with rooms := st.rooms.filter fun m => !(m.1 == sid && m.2 == room) }

/-- `handle_disconnect` — src/app.py lines 690-698: scan the `users` dict for
the first entry whose value equals `request.sid`, leave the room stored as
that value, and delete the entry. -/
def handleDisconnect (st : SocketState) (sid : Nat) : SocketState :=
  match st.users.find? (fun e => e.2 == sid) with
  | none => st
  | some (username, room) =>
    let st' := leaveRoom st sid room
    { st' with users := st'.users.eraseP fun e => e.1 == username }

/-- Whether the transport keeps the connection.  flask_socketio rejects a
connection only when the connect handler returns `False` (or raises
`ConnectionRefusedError`); a handler that returns `None` accepts it. -/
inductive ConnectOutcome where
  | accepted
  | rejected
deriving Repr, DecidableEq

/-- `handle_connect` — src/app.py lines 674-688.  `token` is the decode
outcome of `request.args.get("token")`: outer `none` = no token supplied,
`some none` = supplied but `decode_token` raises.  On both failure paths the
handler calls `handle_disconnect()` (the cleanup function; `disconnect` is
never imported or invoked) and then falls off the end, returning `None` —
which the transport treats as accepting the connection. -/
def handleConnect (st : SocketState) (sid : Nat)
    (token : Option (Option TokenPayload)) : ConnectOutcome × SocketState :=
  match token with
  | none => (.accepted, handleDisconnect st sid)
  | some none => (.accepted, handleDisconnect st sid)
  | some (some _) => (.accepted, st)

/-! Basic lemmas about the lookups and the membership handlers. -/

theorem getUser_id {s : AppState} {uid : Nat} {u : User}
    (h : getUser s uid = some u) : u.id = uid := by
  have := List.find?_some h
  simpa using this

theorem getPlaydate_id {s : AppState} {pid : Nat} {p : Playdate}
    (h : getPlaydate s pid = some p) : p.id = pid := by
  have := List.find?_some h
  simpa using this

theorem getPlaydate_mem {s : AppState} {pid : Nat} {p : Playdate}
    (h : getPlaydate s pid = some p) : p ∈ s.playdates :=
  List.mem_of_find?_eq_some h

@[simp] theorem getUser_setParticipants (s : AppState) (ps : List Participant)
    (uid : Nat) : getUser { s with participants := ps } uid = getUser s uid := rfl

@[simp] theorem getPlaydate_setParticipants (s : AppState) (ps : List Participant)
    (pid : Nat) : getPlaydate { s with participants := ps } pid = getPlaydate s pid := rfl

@[simp] theorem playdateParticipants_setParticipants (s : AppState)
    (ps : List Participant) (pid : Nat) :
    playdateParticipants { s with participants := ps } pid =
      ps.filter (fun pt => pt.playdate_id == pid) := rfl

@[simp] theorem findParticipant_setParticipants (s : AppState)
    (ps : List Participant) (uid pid : Nat) :
    findParticipant { s with participants := ps } uid pid =
      ps.find? (fun pt => pt.user_id == uid && pt.playdate_id == pid) := rfl

/-- Shape of a successful join: with all guards passing, `add_participant`
answers 201 with the incremented count and appends exactly one row. -/
theorem addParticipant_created {s : AppState} {pid uid : Nat} {u : User} {p : Playdate}
    (hu0 : uid ≠ 0) (hu : getUser s uid = some u) (hp : getPlaydate s pid = some p)
    (hnp : findParticipant s uid pid = none)
    (hcap : capacityBlocked p.max_participants (participantCount s pid) = false) :
    addParticipant s pid (some uid) =
      (.created (participantCount s pid + 1),
        { s with participants := s.participants ++ [⟨uid, pid⟩] }) := by
  have hui : u.id = uid := getUser_id hu
  have hpi : p.id = pid := getPlaydate_id hp
  have hcap' : capacityBlocked p.max_participants
      (playdateParticipants s pid).length = false := hcap
  unfold addParticipant
  dsimp only
  rw [if_neg (by simpa using hu0), hu, hp]
  dsimp only
  rw [hui, hpi, hnp]
  dsimp only
  rw [hcap']
  simp [participantCount, playdateParticipants, List.filter_append]

/-- Joins never touch the playdates table. -/
theorem addParticipant_playdates (s : AppState) (pid : Nat) (uo : Option Nat) :
    ((addParticipant s pid uo).2).playdates = s.playdates := by
  unfold addParticipant
  repeat' split
  all_goals first | rfl | (dsimp only; split <;> rfl)

/-- Leaves never touch the playdates table. -/
theorem removeParticipant_playdates (s : AppState) (pid uid : Nat) :
    ((removeParticipant s pid uid).2).playdates = s.playdates := by
  unfold removeParticipant
  repeat' split
  all_goals rfl

theorem applyOp_playdates (s : AppState) (op : MembershipOp) :
    (applyOp s op).playdates = s.playdates := by
  cases op with
  | join u p => exact addParticipant_playdates s p (some u)
  | leave u p => exact removeParticipant_playdates s p u

/-- One join preserves the positive-capacity invariant (playdate ids are
pairwise distinct, being a primary key). -/
theorem posCapacityInvariant_addParticipant (s : AppState) (pid : Nat)
    (uo : Option Nat) (hids : (s.playdates.map Playdate.id).Nodup)
    (hinv : posCapacityInvariant s) :
    posCapacityInvariant (addParticipant s pid uo).2 := by
  rcases uo with _ | uid
  · simpa [addParticipant] using hinv
  by_cases huid0 : uid = 0
  · simpa [addParticipant, huid0] using hinv
  rcases hu : getUser s uid with _ | user
  · simpa [addParticipant, hu, huid0] using hinv
  rcases hp : getPlaydate s pid with _ | playdate
  · simpa [addParticipant, hu, hp, huid0] using hinv
  rcases hnp : findParticipant s user.id playdate.id with _ | pt
  · by_cases hcap : capacityBlocked playdate.max_participants
        (playdateParticipants s playdate.id).length = true
    · simpa [addParticipant, hu, hp, hnp, huid0, hcap] using hinv
    · have hstate : (addParticipant s pid (some uid)).2 =
          { s with participants := s.participants ++ [⟨user.id, playdate.id⟩] } := by
        simp [addParticipant, hu, hp, hnp, huid0, hcap]
      rw [hstate]
      intro q hq m hm hpos
      have hq' : q ∈ s.playdates := hq
      have hbase := hinv q hq' m hm hpos
      have hmem : playdate ∈ s.playdates := getPlaydate_mem hp
      dsimp only [participantCount, playdateParticipants] at hbase ⊢
      rw [List.filter_append, List.length_append]
      by_cases hqi : playdate.id = q.id
      · have hqp : q = playdate := List.inj_on_of_nodup_map hids hq' hmem hqi.symm
        subst hqp
        have hcapb : capacityBlocked q.max_participants
            ((s.participants.filter fun pt => pt.playdate_id == q.id)).length
              = false := by
          have := eq_false_of_ne_true hcap
          simpa [playdateParticipants] using this
        rw [hm] at hcapb
        have hlt : (s.participants.filter fun pt => pt.playdate_id == q.id).length < m := by
          have h := hcapb
          simp [capacityBlocked] at h
          exact h (by omega)
        simp only [List.filter_cons, List.filter_nil]
        simp
        omega
      · simpa [hqi] using hbase
  · simpa [addParticipant, hu, hp, hnp, huid0] using hinv


/-- One leave preserves the positive-capacity invariant: deleting a row can
only lower a participant count. -/
theorem posCapacityInvariant_removeParticipant (s : AppState) (pid uid : Nat)
    (hinv : posCapacityInvariant s) :
    posCapacityInvariant (removeParticipant s pid uid).2 := by
  rcases hu : getUser s uid with _ | user
  · simpa [removeParticipant, hu] using hinv
  rcases hp : getPlaydate s pid with _ | playdate
  · simpa [removeParticipant, hu, hp] using hinv
  rcases hnp : findParticipant s user.id playdate.id with _ | pt
  · simpa [removeParticipant, hu, hp, hnp] using hinv
  have hstate : (removeParticipant s pid uid).2 =
      { s with participants := s.participants.eraseP (fun x => x.user_id == user.id && x.playdate_id == playdate.id) } := by
    simp [removeParticipant, hu, hp, hnp]
  rw [hstate]
  intro q hq m hm hpos
  have hbase := hinv q hq m hm hpos
  dsimp only [participantCount, playdateParticipants] at hbase ⊢
  have hsub := List.Sublist.length_le
    (List.Sublist.filter (fun pt => pt.playdate_id == q.id)
      (List.eraseP_sublist (p := fun x => x.user_id == user.id && x.playdate_id == playdate.id) s.participants))
  omega

/-- A single membership request preserves the positive-capacity invariant. -/
theorem posCapacityInvariant_applyOp (s : AppState) (op : MembershipOp)
    (hids : (s.playdates.map Playdate.id).Nodup)
    (hinv : posCapacityInvariant s) :
    posCapacityInvariant (applyOp s op) := by
  cases op with
  | join u p => exact posCapacityInvariant_addParticipant s p (some u) hids hinv
  | leave u p => exact posCapacityInvariant_removeParticipant s p u hinv

/-- The sequence of membership requests run by folding the handlers. -/
theorem runOps_cons (s : AppState) (op : MembershipOp) (ops : List MembershipOp) :
    runOps s (op :: ops) = runOps (applyOp s op) ops := rfl

/-! Fixtures for the capacity-invariant claim. -/

/-- A generic user row. -/
def exUser (i : Nat) : User :=
  { id := i, username := "u", first_name := "F", last_name := "L",
    email := "e", password := "pw" }

/-- A playdate with the given id and capacity. -/
def exPlaydate (i : Nat) (cap : Option Nat) : Playdate :=
  { id := i, title := "Morning run", sport_id := 1, creator_id := 1,
    address := "Park", longitude := 0, latitude := 0, date := 1000,
    max_participants := cap }

/-- State for the C1 counterexample: one user, one playdate with
`max_participants = 0` (non-null), no participants. -/
def c1State : AppState :=
  { users := [exUser 1], playdates := [exPlaydate 1 (some 0)],
    participants := [], chats := [] }

/-- C1 counterexample: the claim fails for a non-null `max_participants` of 0.
`c1State` satisfies the spec invariant (count 0 <= max 0), yet a single join
is accepted — the truthiness test skips the capacity check — and afterwards
the count 1 exceeds the non-null bound 0. -/
theorem capacityInvariant_not_preserved :
    capacityInvariant c1State ∧
    (exPlaydate 1 (some 0)).max_participants = some 0 ∧
    (addParticipant c1State 1 (some 1)).1 = .created 1 ∧
    ¬ capacityInvariant (runOps c1State [MembershipOp.join 1 1]) := by
  refine ⟨?_, rfl, by decide, ?_⟩
  · intro p hp m hm
    have hp' : p = exPlaydate 1 (some 0) := by simpa [c1State] using hp
    subst hp'
    have hm' : m = 0 := by simpa [exPlaydate] using hm.symm
    subst hm'
    decide
  · intro h
    exact absurd (h (exPlaydate 1 (some 0)) (by decide) 0 rfl) (by decide)

/-- C1 (amended): restricted to playdates whose `max_participants` is non-null
AND positive, every sequence of join and leave requests preserves the bound:
if every such playdate starts within capacity it stays within capacity after
any sequence of `add_participant` / `remove_participant` calls.  (Playdate ids
are assumed pairwise distinct — they are a primary key.) -/
theorem runOps_preserves_posCapacityInvariant (s : AppState)
    (ops : List MembershipOp) (hids : (s.playdates.map Playdate.id).Nodup)
    (hinv : posCapacityInvariant s) :
    posCapacityInvariant (runOps s ops) := by
  induction ops generalizing s with
  | nil => exact hinv
  | cons op rest ih =>
    rw [runOps_cons]
    exact ih (applyOp s op)
      (by rw [applyOp_playdates]; exact hids)
      (posCapacityInvariant_applyOp s op hids hinv)

/-- State for the C1 witness: three users and a playdate with capacity 2. -/
def c1wState : AppState :=
  { users := [exUser 1, exUser 2, exUser 3],
    playdates := [exPlaydate 1 (some 2)], participants := [], chats := [] }

/-- Requests exercised by the C1 witness. -/
def c1wOps : List MembershipOp :=
  [.join 1 1, .join 2 1, .join 3 1, .leave 1 1, .join 3 1]

/-- Witness for the amended C1 theorem at a concrete run: after three join
attempts, a leave and a retry against capacity 2, the invariant still holds
(and the final count is exactly 2). -/
theorem runOps_preserves_posCapacityInvariant_witness :
    posCapacityInvariant (runOps c1wState c1wOps) ∧
    participantCount (runOps c1wState c1wOps) 1 = 2 := by
  refine ⟨runOps_preserves_posCapacityInvariant c1wState c1wOps (by decide) ?_, by decide⟩
  intro p hp m hm hpos
  have hp' : p = exPlaydate 1 (some 2) := by simpa [c1wState] using hp
  subst hp'
  exact Nat.le_trans (by decide) hpos

/-! The concrete capacity-2 scenario. -/

/-- Scenario start: users U1, U2, U3 and playdate P with capacity 2. -/
def c3s0 : AppState :=
  { users := [exUser 1, exUser 2, exUser 3],
    playdates := [exPlaydate 1 (some 2)], participants := [], chats := [] }

/-- State after U1 joined P. -/
def c3s1 : AppState := (addParticipant c3s0 1 (some 1)).2

/-- State after U2 also joined P. -/
def c3s2 : AppState := (addParticipant c3s1 1 (some 2)).2

/-- State after U3 attempted to join full P. -/
def c3s3 : AppState := (addParticipant c3s2 1 (some 3)).2

/-- State after U1 left P. -/
def c3s4 : AppState := (removeParticipant c3s3 1 1).2

/-- State after U3 joined the freed slot. -/
def c3s5 : AppState := (addParticipant c3s4 1 (some 3)).2

/-- C3: with max_participants 2, the exact scenario of the spec plays out:
U1 joins (201, count 1), U2 joins (201, count 2), U3 is rejected with
capacityExceeded (403) and the count stays 2, U1 leaves (200, count 1) and
then U3 joins (201, count 2). -/
theorem capacity_two_scenario :
    (addParticipant c3s0 1 (some 1)).1 = .created 1 ∧ participantCount c3s1 1 = 1 ∧
    (addParticipant c3s1 1 (some 2)).1 = .created 2 ∧ participantCount c3s2 1 = 2 ∧
    (addParticipant c3s2 1 (some 3)).1 = .capacityExceeded ∧ participantCount c3s3 1 = 2 ∧
    (removeParticipant c3s3 1 1).1 = .removed 1 ∧ participantCount c3s4 1 = 1 ∧
    (addParticipant c3s4 1 (some 3)).1 = .created 2 ∧ participantCount c3s5 1 = 2 := by
  decide

/-- C9: a playdate whose max_participants is 0 is treated as unlimited, not
full: the capacity branch tests Python truthiness, so a join by an existing
non-participant user succeeds and appends the membership row. -/
theorem addParticipant_maxZero_unlimited (s : AppState) (pid uid : Nat)
    (u : User) (p : Playdate) (hu0 : uid ≠ 0) (hu : getUser s uid = some u)
    (hp : getPlaydate s pid = some p) (hmax : p.max_participants = some 0)
    (hnp : findParticipant s uid pid = none) :
    addParticipant s pid (some uid) =
      (.created (participantCount s pid + 1),
        { s with participants := s.participants ++ [⟨uid, pid⟩] }) := by
  apply addParticipant_created hu0 hu hp hnp
  rw [hmax]
  simp [capacityBlocked]

/-- State for the C9 witness: one user, one playdate with capacity 0. -/
def c9State : AppState :=
  { users := [exUser 4], playdates := [exPlaydate 2 (some 0)],
    participants := [], chats := [] }

/-- Witness for C9 at a concrete state. -/
theorem addParticipant_maxZero_unlimited_witness :
    addParticipant c9State 2 (some 4) =
      (.created (participantCount c9State 2 + 1),
        { c9State with participants := c9State.participants ++ [⟨4, 2⟩] }) :=
  addParticipant_maxZero_unlimited c9State 2 4 (exUser 4) (exPlaydate 2 (some 0))
    (by decide) (by decide) (by decide) rfl (by decide)

/-- Shape of a successful leave: with the user, playdate and membership row
present, `remove_participant` answers 200 and erases the first matching row. -/
theorem removeParticipant_removed {s : AppState} {pid uid : Nat} {u : User}
    {p : Playdate} {x : Participant} (hu : getUser s uid = some u)
    (hp : getPlaydate s pid = some p) (hfp : findParticipant s uid pid = some x) :
    removeParticipant s pid uid =
      (.removed (((s.participants.eraseP (fun t => t.user_id == uid && t.playdate_id == pid)).filter (fun t => t.playdate_id == pid)).length),
        { s with participants := s.participants.eraseP (fun t => t.user_id == uid && t.playdate_id == pid) }) := by
  have hui : u.id = uid := getUser_id hu
  have hpi : p.id = pid := getPlaydate_id hp
  unfold removeParticipant
  rw [hu, hp]
  dsimp only
  rw [hui, hpi, hfp]
  dsimp only
  simp [playdateParticipants]

/-- C7: against any state where the user and playdate exist, the pair is not
yet a member and the capacity guard passes, the sequence join; leave; join
succeeds at every step: the leave lands back exactly on the starting state, so
the second join repeats the first, and the final state carries exactly one
membership row for the pair. -/
theorem join_leave_join_succeeds (s : AppState) (pid uid : Nat) (u : User)
    (p : Playdate) (hu0 : uid ≠ 0) (hu : getUser s uid = some u)
    (hp : getPlaydate s pid = some p) (hnp : findParticipant s uid pid = none)
    (hcap : capacityBlocked p.max_participants (participantCount s pid) = false) :
    ∃ s₁ s₂ s₃,
      addParticipant s pid (some uid) = (.created (participantCount s pid + 1), s₁) ∧
      removeParticipant s₁ pid uid = (.removed (participantCount s pid), s₂) ∧
      s₂ = s ∧
      addParticipant s₂ pid (some uid) = (.created (participantCount s pid + 1), s₃) ∧
      (s₃.participants.filter (fun t => t.user_id == uid && t.playdate_id == pid)).length = 1 := by
  have hjoin := addParticipant_created hu0 hu hp hnp hcap
  have hnp2 : s.participants.find? (fun t => t.user_id == uid && t.playdate_id == pid) = none := hnp
  have hnone : ∀ b ∈ s.participants, ¬((fun t => t.user_id == uid && t.playdate_id == pid) b = true) :=
    List.find?_eq_none.mp hnp2
  refine ⟨{ s with participants := s.participants ++ [⟨uid, pid⟩] }, s,
    { s with participants := s.participants ++ [⟨uid, pid⟩] }, hjoin, ?_, rfl, hjoin, ?_⟩
  · have hfp1 : findParticipant { s with participants := s.participants ++ [⟨uid, pid⟩] } uid pid = some ⟨uid, pid⟩ := by
      show (s.participants ++ [(⟨uid, pid⟩ : Participant)]).find? _ = _
      rw [List.find?_append, hnp2]
      simp
    have herase : (s.participants ++ [(⟨uid, pid⟩ : Participant)]).eraseP (fun t => t.user_id == uid && t.playdate_id == pid) = s.participants := by
      rw [List.eraseP_append_right _ hnone]
      simp
    have h2 := removeParticipant_removed (s := { s with participants := s.participants ++ [⟨uid, pid⟩] }) hu hp hfp1
    rw [h2]
    have hps : ({ s with participants := s.participants ++ [⟨uid, pid⟩] } : AppState).participants = s.participants ++ [⟨uid, pid⟩] := rfl
    rw [hps, herase]
    rfl
  · have hfilter : s.participants.filter (fun t => t.user_id == uid && t.playdate_id == pid) = [] :=
      List.filter_eq_nil_iff.mpr hnone
    simp [List.filter_append, hfilter]

/-- State for the C7 witness: one user, one playdate with spare capacity. -/
def c7State : AppState :=
  { users := [exUser 8], playdates := [exPlaydate 5 (some 3)],
    participants := [], chats := [] }

/-- Witness for C7 at a concrete state: the first join answers 201 and the
subsequent leave restores exactly the starting state. -/
theorem join_leave_join_succeeds_witness :
    (addParticipant c7State 5 (some 8)).1 = .created 1 ∧
    (removeParticipant (addParticipant c7State 5 (some 8)).2 5 8).2 = c7State := by
  obtain ⟨s₁, s₂, s₃, h1, h2, h3, h4, h5⟩ :=
    join_leave_join_succeeds c7State 5 8 (exUser 8) (exPlaydate 5 (some 3))
      (by decide) (by decide) (by decide) (by decide) (by decide)
  constructor
  · rw [h1]
    rfl
  · rw [h1]
    dsimp only
    rw [h2]
    exact h3

/-- C4 (amended): the error ladder of `add_participant` in source order — 404
when the user or the playdate is missing, 409 when the pair is already a
member, 403 when max_participants is set to a NONZERO value and the count has
reached it (a zero value is skipped by the truthiness test, see the
counterexample), and a second join straight after a successful one is a 409;
every error leaves the state untouched. -/
theorem addParticipant_error_cases (s : AppState) (pid uid : Nat) :
    (uid ≠ 0 → getUser s uid = none →
      addParticipant s pid (some uid) = (.userNotFound, s)) ∧
    (∀ u, uid ≠ 0 → getUser s uid = some u → getPlaydate s pid = none →
      addParticipant s pid (some uid) = (.playdateNotFound, s)) ∧
    (∀ u p x, uid ≠ 0 → getUser s uid = some u → getPlaydate s pid = some p →
      findParticipant s uid pid = some x →
      addParticipant s pid (some uid) = (.conflict, s)) ∧
    (∀ u p m, uid ≠ 0 → getUser s uid = some u → getPlaydate s pid = some p →
      findParticipant s uid pid = none → p.max_participants = some m → m ≠ 0 →
      participantCount s pid ≥ m →
      addParticipant s pid (some uid) = (.capacityExceeded, s)) ∧
    (∀ c s₁, addParticipant s pid (some uid) = (.created c, s₁) →
      (addParticipant s₁ pid (some uid)).1 = .conflict) := by
  refine ⟨?_, ?_, ?_, ?_, ?_⟩
  · intro hu0 hu
    simp [addParticipant, hu, hu0]
  · intro u hu0 hu hp
    simp [addParticipant, hu, hp, hu0]
  · intro u p x hu0 hu hp hfp
    have hui : u.id = uid := getUser_id hu
    have hpi : p.id = pid := getPlaydate_id hp
    simp [addParticipant, hu, hp, hu0, hui, hpi, hfp]
  · intro u p m hu0 hu hp hnp hm hm0 hge
    have hui : u.id = uid := getUser_id hu
    have hpi : p.id = pid := getPlaydate_id hp
    have hge' : (playdateParticipants s pid).length ≥ m := hge
    have hblocked : capacityBlocked p.max_participants (playdateParticipants s pid).length = true := by
      rw [hm]
      simp [capacityBlocked, hm0]
      omega
    unfold addParticipant
    dsimp only
    rw [if_neg (by simpa using hu0), hu, hp]
    dsimp only
    rw [hui, hpi, hnp]
    dsimp only
    rw [hblocked]
    simp
  · intro c s₁ heq
    by_cases hu0 : uid = 0
    · simp [addParticipant, hu0] at heq
    rcases hu : getUser s uid with _ | u
    · simp [addParticipant, hu, hu0] at heq
    rcases hp : getPlaydate s pid with _ | p
    · simp [addParticipant, hu, hp, hu0] at heq
    have hui : u.id = uid := getUser_id hu
    have hpi : p.id = pid := getPlaydate_id hp
    rcases hnp : findParticipant s uid pid with _ | x
    swap
    · rw [← hui, ← hpi] at hnp
      simp [addParticipant, hu, hp, hu0, hnp] at heq
    by_cases hcap : capacityBlocked p.max_participants (playdateParticipants s pid).length = true
    · rw [← hui, ← hpi] at hnp
      rw [← hpi] at hcap
      simp [addParticipant, hu, hp, hu0, hnp, hcap] at heq
    have hcapf : capacityBlocked p.max_participants (participantCount s pid) = false := by
      have h := eq_false_of_ne_true hcap
      simpa [participantCount, playdateParticipants] using h
    have hjoin := addParticipant_created hu0 hu hp hnp hcapf
    rw [hjoin] at heq
    cases heq
    have hnp2 : s.participants.find? (fun t => t.user_id == uid && t.playdate_id == pid) = none := hnp
    have hfp1 : (s.participants ++ [(⟨uid, pid⟩ : Participant)]).find? (fun t => t.user_id == uid && t.playdate_id == pid) = some ⟨uid, pid⟩ := by
      rw [List.find?_append, hnp2]
      simp
    simp [addParticipant, hu, hp, hu0, hui, hpi, hfp1]

/-- State for the C4 counterexample: an existing user and playdate with
`max_participants` set to 0, pair not yet a member. -/
def c4State : AppState :=
  { users := [exUser 5], playdates := [exPlaydate 3 (some 0)],
    participants := [], chats := [] }

/-- C4 counterexample: every hypothesis of the claim's CapacityExceeded case
holds here — the user and playdate exist, the pair is not a member,
`max_participants` is set (to 0) and the count has reached it — yet the code
answers 201 and inserts the row instead of 403, because the truthiness test
skips a zero capacity. -/
theorem addParticipant_capacity_claim_fails_at_zero :
    getUser c4State 5 = some (exUser 5) ∧
    getPlaydate c4State 3 = some (exPlaydate 3 (some 0)) ∧
    findParticipant c4State 5 3 = none ∧
    (exPlaydate 3 (some 0)).max_participants = some 0 ∧
    participantCount c4State 3 ≥ 0 ∧
    (addParticipant c4State 3 (some 5)).1 ≠ .capacityExceeded ∧
    (addParticipant c4State 3 (some 5)).1 = .created 1 := by
  decide

/-- Fixture for the C4 witness: a pair that is already a member. -/
def c4wState : AppState :=
  { users := [exUser 6, exUser 7], playdates := [exPlaydate 4 (some 3)],
    participants := [⟨6, 4⟩], chats := [] }

/-- Fixture for the C4 witness: a full playdate (capacity 1, one member). -/
def c4wFull : AppState :=
  { users := [exUser 6, exUser 7], playdates := [exPlaydate 4 (some 1)],
    participants := [⟨6, 4⟩], chats := [] }

/-- State reached by the successful join used in the C4 second-join case. -/
def c4s1 : AppState := (addParticipant c4State 3 (some 5)).2

/-- Witness for the amended C4 theorem, exercising every error case at
concrete states. -/
theorem addParticipant_error_cases_witness :
    addParticipant c4wState 4 (some 9) = (.userNotFound, c4wState) ∧
    addParticipant c4wState 9 (some 6) = (.playdateNotFound, c4wState) ∧
    addParticipant c4wState 4 (some 6) = (.conflict, c4wState) ∧
    addParticipant c4wFull 4 (some 7) = (.capacityExceeded, c4wFull) ∧
    (addParticipant c4s1 3 (some 5)).1 = .conflict := by
  refine ⟨?_, ?_, ?_, ?_, ?_⟩
  · exact (addParticipant_error_cases c4wState 4 9).1 (by decide) (by decide)
  · exact (addParticipant_error_cases c4wState 9 6).2.1 (exUser 6) (by decide)
      (by decide) (by decide)
  · exact (addParticipant_error_cases c4wState 4 6).2.2.1 (exUser 6)
      (exPlaydate 4 (some 3)) ⟨6, 4⟩ (by decide) (by decide) (by decide) (by decide)
  · exact (addParticipant_error_cases c4wFull 4 7).2.2.2.1 (exUser 7)
      (exPlaydate 4 (some 1)) 1 (by decide) (by decide) (by decide) (by decide)
      rfl (by decide) (by decide)
  · exact (addParticipant_error_cases c4State 3 5).2.2.2.2 1 c4s1 (by decide)

/-- The handler is exactly its two phases run back to back: the state it
leaves behind is the insert applied when the guards pass, the input state
otherwise. -/
theorem addParticipant_matches_phases (s : AppState) (pid uid : Nat) :
    (addParticipant s pid (some uid)).2 =
      (if joinCheck s uid pid then joinInsert s uid pid else s) := by
  by_cases hu0 : uid = 0
  · simp [addParticipant, joinCheck, hu0]
  rcases hu : getUser s uid with _ | u
  · simp [addParticipant, joinCheck, hu, hu0]
  rcases hp : getPlaydate s pid with _ | p
  · simp [addParticipant, joinCheck, hu, hp, hu0]
  have hui : u.id = uid := getUser_id hu
  have hpi : p.id = pid := getPlaydate_id hp
  rcases hnp : findParticipant s u.id p.id with _ | x
  swap
  · simp [addParticipant, joinCheck, hu, hp, hu0, hnp]
  by_cases hcap : capacityBlocked p.max_participants (playdateParticipants s p.id).length = true
  · simp [addParticipant, joinCheck, hu, hp, hu0, hnp, hcap]
  · have hcapf := eq_false_of_ne_true hcap
    rw [hui, hpi] at hnp
    rw [hpi] at hcapf
    simp [addParticipant, joinCheck, hu, hp, hu0, hnp, hcapf, joinInsert, hui, hpi]

/-- A join reports 201 exactly when its check phase passes. -/
theorem addParticipant_succeeds_iff_joinCheck (s : AppState) (pid uid : Nat) :
    (∃ c, (addParticipant s pid (some uid)).1 = .created c) ↔
      joinCheck s uid pid = true := by
  by_cases hu0 : uid = 0
  · simp [addParticipant, joinCheck, hu0]
  rcases hu : getUser s uid with _ | u
  · simp [addParticipant, joinCheck, hu, hu0]
  rcases hp : getPlaydate s pid with _ | p
  · simp [addParticipant, joinCheck, hu, hp, hu0]
  rcases hnp : findParticipant s u.id p.id with _ | x
  swap
  · simp [addParticipant, joinCheck, hu, hp, hu0, hnp]
  by_cases hcap : capacityBlocked p.max_participants (playdateParticipants s p.id).length = true
  · simp [addParticipant, joinCheck, hu, hp, hu0, hnp, hcap]
  · have hcapf := eq_false_of_ne_true hcap
    simp [addParticipant, joinCheck, hu, hp, hu0, hnp, hcapf]

/-- Initial state of the race: two users, a playdate with capacity 1, nobody
joined yet. -/
def c2State : AppState :=
  { users := [exUser 1, exUser 2], playdates := [exPlaydate 1 (some 1)],
    participants := [], chats := [] }

/-- The two concurrent join requests. -/
def c2Tasks : List JoinTask :=
  [{ user_id := 1, playdate_id := 1 }, { user_id := 2, playdate_id := 1 }]

/-- The interleaving that loses: both requests run their guard phase before
either inserts. -/
def c2Schedule : List (Nat × JoinPhase) :=
  [(0, .check), (1, .check), (0, .insert), (1, .insert)]

/-- C2: the check-then-insert race.  Under the serialized orders the code does
what the claim says for N = 1, k = 1 — one 201 and one 403, in either arrival
order.  But under the interleaving in which both requests read the count
before either inserts, BOTH report success and the final count 2 exceeds the
capacity 1, refuting the claim for the code as written. -/
theorem concurrent_joins_overshoot_capacity :
    (addParticipant c2State 1 (some 1)).1 = .created 1 ∧
    (addParticipant (addParticipant c2State 1 (some 1)).2 1 (some 2)).1 = .capacityExceeded ∧
    (addParticipant c2State 1 (some 2)).1 = .created 1 ∧
    (addParticipant (addParticipant c2State 1 (some 2)).2 1 (some 1)).1 = .capacityExceeded ∧
    (exPlaydate 1 (some 1)).max_participants = some 1 ∧
    ((runInterleaving c2State c2Tasks c2Schedule).2.map JoinTask.succeeded) = [some true, some true] ∧
    participantCount (runInterleaving c2State c2Tasks c2Schedule).1 1 = 2 := by
  decide

/-- The QUERY of the direct branch is correct: it computes exactly the
persisted messages between the requesting user `a` and the peer `b` (a
permutation of the filtered table), sorted by timestamp ascending, and every
selected message is between `a` and `b` — none involves a third user.  The
handler built on it still crashes while serializing this list, see
`chatHistory_handler_never_returns_messages`. -/
theorem chatHistoryDirect_query_correct (s : AppState) (a b : Nat) :
    (chatHistoryDirect s a b).Perm (s.chats.filter (directPairPred a b)) ∧
    (chatHistoryDirect s a b).Pairwise chatDateLe ∧
    ∀ c ∈ chatHistoryDirect s a b,
      (c.sender_id = a ∧ c.receiver_id = b) ∨ (c.sender_id = b ∧ c.receiver_id = a) := by
  refine ⟨List.perm_insertionSort chatDateLe _, List.sorted_insertionSort chatDateLe _, ?_⟩
  intro c hc
  have hmem : c ∈ s.chats.filter (directPairPred a b) :=
    (List.perm_insertionSort chatDateLe _).mem_iff.mp hc
  have hpred := (List.mem_filter.mp hmem).2
  simp only [directPairPred, Bool.or_eq_true, Bool.and_eq_true, beq_iff_eq] at hpred
  tauto

/-- A chat row fixture. -/
def mkChat (sid rid d : Nat) (msg : String) : Chat :=
  { sender_id := sid, receiver_id := rid, message := msg,
    message_type := .text, date := d, status := "sent" }

/-- State for the C6 failing input: five messages out of timestamp order, two
between users 1 and 2 and three involving a third user. -/
def c6State : AppState :=
  { users := [], playdates := [], participants := [],
    chats := [mkChat 1 2 30 "m1", mkChat 3 1 10 "m2", mkChat 2 1 20 "m3",
              mkChat 1 3 5 "m4", mkChat 2 3 1 "m5"] }

/-- State whose (1,2) history is empty: the one case the handler survives. -/
def c6Empty : AppState :=
  { users := [], playdates := [], participants := [],
    chats := [mkChat 2 3 1 "m5"] }

/-- A decoded token for user 1. -/
def c6Token : TokenPayload :=
  { sub := "u", email := "e", firstName := "F", lastName := "L", userId := 1 }

/-- The `get_chat_history` event of the C6 failing input: a valid token for
user 1, direct peer 2, no room. -/
def c6Req : ChatHistoryData :=
  { token := some c6Token, room := none, receiver_id := some 2 }

/-- C6: the direct-pair QUERY does compute exactly the claimed list — a
permutation of the (a,b)/(b,a)-filtered table, sorted by date ascending, no
third-party message — but the handler never returns it: its serializer reads
`chat.room_id` (src/app.py line 751), an attribute `models.Chat` does not map,
so every non-empty history crashes the handler before anything is emitted and
a `chat_history` event can only ever carry the empty list.  At the concrete
failing input the two matching messages exist, yet the handler aborts. -/
theorem chatHistory_handler_never_returns_messages :
    (∀ s a b, (chatHistoryDirect s a b).Perm (s.chats.filter (directPairPred a b)) ∧
      (chatHistoryDirect s a b).Pairwise chatDateLe ∧
      ∀ c ∈ chatHistoryDirect s a b,
        (c.sender_id = a ∧ c.receiver_id = b) ∨ (c.sender_id = b ∧ c.receiver_id = a)) ∧
    (∀ s data msgs, handleChatHistory s data = .history msgs → msgs = []) ∧
    handleChatHistory c6State c6Req = .uncaughtError ∧
    handleChatHistory c6Empty c6Req = .history [] ∧
    chatHistoryDirect c6State 1 2 = [mkChat 2 1 20 "m3", mkChat 1 2 30 "m1"] := by
  refine ⟨chatHistoryDirect_query_correct, ?_, by decide, by decide, by decide⟩
  intro s data msgs h
  unfold handleChatHistory at h
  repeat' split at h
  all_goals simp_all

/-- Witness for C6 at the concrete failing input: the handler aborts on the
non-empty history even though the query result is sorted and ready. -/
theorem chatHistory_handler_never_returns_messages_witness :
    handleChatHistory c6State c6Req = .uncaughtError ∧
    (chatHistoryDirect c6State 1 2).Pairwise chatDateLe ∧
    handleChatHistory c6Empty c6Req = .history [] :=
  ⟨chatHistory_handler_never_returns_messages.2.2.1,
   (chatHistory_handler_never_returns_messages.1 c6State 1 2).2.1,
   chatHistory_handler_never_returns_messages.2.2.2.1⟩

/-! The chat boundary claims. -/

/-- State for the chat-boundary evaluations. -/
def c5State : AppState :=
  { users := [exUser 1, exUser 2], playdates := [], participants := [],
    chats := [] }

/-- A well-formed direct-message request: receiver only, valid date. -/
def c5ReceiverOnly : ChatPostData :=
  { sender_id := some 1, receiver_id := some 2, room_id := none,
    message := some "hi", message_type := some "TEXT",
    date := some (some 100), status := none }

/-- A request that supplies both targets. -/
def c5Both : ChatPostData :=
  { sender_id := some 1, receiver_id := some 2, room_id := some 7,
    message := some "hi", message_type := some "TEXT",
    date := some (some 100), status := none }

/-- A request that supplies neither target. -/
def c5Neither : ChatPostData :=
  { sender_id := some 1, receiver_id := none, room_id := none,
    message := some "hi", message_type := some "TEXT",
    date := some (some 100), status := none }

/-- A decoded token fixture. -/
def exToken : TokenPayload :=
  { sub := "u", email := "e", firstName := "F", lastName := "L", userId := 1 }

/-- A well-formed send_message event for room 7. -/
def c5Send : SendMessageData :=
  { token := some exToken, room := some 7, receiver_id := none,
    message := some "hi", message_type := some "TEXT", date := some 100 }

/-- C5: the chat boundary.  The handlers do reject a request that supplies
both targets or neither (400), but no Chat row is EVER created through either
handler — `models.Chat` has no room_id column, so the constructor keyword
`room_id` raises TypeError on every path that reaches it (and a room-only
POST dies earlier on `data['receiver_id']`): the room_id-XOR-receiver_id
property holds only vacuously, and even a well-formed direct-message request
answers 500 with the table unchanged. -/
theorem chat_boundary_never_persists :
    (∀ s data, (addChat s data).2 = s) ∧
    (∀ s data, (sendMessage s data).2 = s) ∧
    addChat c5State c5ReceiverOnly = (.internalError, c5State) ∧
    (addChat c5State c5Both).1 = .badRequest "Cannot have both receiver_id and room_id" ∧
    (addChat c5State c5Neither).1 = .badRequest "Either receiver_id or room_id must be provided" ∧
    sendMessage c5State c5Send = (.errorEvent "An error occurred while sending the message.", c5State) := by
  refine ⟨?_, ?_, by decide, by decide, by decide, by decide⟩
  · intro s data
    unfold addChat
    repeat' split
    all_goals rfl
  · intro s data
    unfold sendMessage
    repeat' split
    all_goals first | rfl | (dsimp only; split <;> rfl)

/-- C10: a room-only `POST /chat` that passes the required-field, exclusivity
and date checks fails with an internal error — the handler evaluates
`data['receiver_id']` unconditionally, a KeyError — and creates no Chat row,
so no group-chat message can be persisted through this endpoint. -/
theorem addChat_roomOnly_internal_error (s : AppState) (data : ChatPostData)
    (t : Nat) (hs : data.sender_id.isSome = true) (hm : data.message.isSome = true)
    (hmt : data.message_type.isSome = true) (hd : data.date = some (some t))
    (hroom : data.room_id.isSome = true) (hrecv : data.receiver_id = none) :
    addChat s data = (.internalError, s) := by
  have hroom' : data.room_id ≠ none := Option.isSome_iff_ne_none.mp hroom
  unfold addChat
  simp [hs, hm, hmt, hd, hroom, hroom', hrecv]

/-- State for the C10 witness. -/
def c10State : AppState :=
  { users := [exUser 3], playdates := [], participants := [], chats := [] }

/-- A room-only chat request passing every validation. -/
def c10Req : ChatPostData :=
  { sender_id := some 3, receiver_id := none, room_id := some 7,
    message := some "hello", message_type := some "TEXT",
    date := some (some 200), status := none }

/-- Witness for C10 at a concrete request. -/
theorem addChat_roomOnly_internal_error_witness :
    addChat c10State c10Req = (.internalError, c10State) :=
  addChat_roomOnly_internal_error c10State c10Req 200 rfl rfl rfl rfl rfl rfl

/-! The connect-handler claim. -/

/-- Socket-layer state with an unrelated registered session (sid 3 for user
"alice", member of room 42); the connecting session has sid 7. -/
def c8Socket : SocketState :=
  { users := [("alice", 3)], rooms := [(3, 42)] }

/-- C8: `handle_connect` never disconnects anybody.  Every path — token
missing, token failing to decode, token valid — returns None, which the
transport takes as ACCEPTING the connection (flask_socketio only rejects on a
`False` return, and `disconnect` is never imported or called); on the failure
paths the handler merely runs the `users`-map cleanup.  The second half of the
claim does hold: no session state is registered for the failed session — at
sid 7 the state is unchanged and carries no user-map entry and no room
membership for that session. -/
theorem handleConnect_never_rejects :
    (∀ st sid tok, (handleConnect st sid tok).1 = ConnectOutcome.accepted) ∧
    handleConnect c8Socket 7 none = (.accepted, c8Socket) ∧
    handleConnect c8Socket 7 (some none) = (.accepted, c8Socket) ∧
    c8Socket.users.filter (fun e => e.2 == 7) = [] ∧
    c8Socket.rooms.filter (fun m => m.1 == 7) = [] := by
  refine ⟨?_, by decide, by decide, by decide, by decide⟩
  intro st sid tok
  rcases tok with _ | tok
  · rfl
  · rcases tok with _ | p <;> rfl

end SportBuddy
